import Mathlib

/-!
Verification of the logging and database-lifecycle core of the
`fastapi_mongo` repository, shallowly embedded in Lean 4.

The embedding follows `src/core/services/logger_service.py` and
`src/core/services/db_service.py`:

* Python `logging` levels are their numeric values (`DEBUG = 10`, ...,
  `CRITICAL = 50`); the configured `LOGGING_LEVEL` is a parameter `cfg`.
* The process-wide `logging` registry is a map from logger name to a
  `LoggerCore` (severity level plus attached handler list), together with
  the root logger's handler list (`hasHandlers` walks up to the root).
* Python `dict` keyword arguments are association lists with
  insert-or-overwrite assignment (`setField`) and lookup (`lookupField`).
* The `contextvars` context variable `request_id_var` is an
  `Option String` threaded explicitly; per the library's contract each
  asyncio task sees its own copy, which the two-task interleaving model
  at the end of the file makes explicit.
* An in-flight Python exception (`sys.exc_info()`) is an `Option Exc`;
  `str(value)` of an exception is its message, `str(type)` renders as
  `<class '...'>`, and `traceback.format_exc()` renders the frames and the
  final `Type: message` line, or `NoneType: None` plus newline when no
  exception is active.
-/

set_option autoImplicit false

namespace FastapiMongo

/-! ## Python logging levels (numeric values of the `logging` module) -/

def DEBUG : Nat := 10
def INFO : Nat := 20
def WARNING : Nat := 30
def ERROR : Nat := 40
def CRITICAL : Nat := 50

/-- `max_log_size = 100 * 1024 * 1024` from `logger_service.py`. -/
def maxLogSize : Nat := 100 * 1024 * 1024

/-! ## Handlers and the logging registry -/

inductive HandlerKind where
  | rotatingFile
  | stream
deriving DecidableEq, Repr

inductive FmtKind where
  /-- `jsonlogger.JsonFormatter(LOGGING_FORMAT)` -/
  | json
  /-- `CustomJsonFormatter(LOGGING_FORMAT)` -/
  | customJson
  /-- `logging.Formatter("[%(levelname)s] %(message)s")` -/
  | plain
deriving DecidableEq, Repr

/-- A configured `logging` handler: kind, target file, open mode,
rotation parameters and formatter.  For a `StreamHandler` the file
fields are unused and left empty/zero. -/
structure Handler where
  kind : HandlerKind
  filename : String
  mode : String
  maxBytes : Nat
  backupCount : Nat
  formatter : FmtKind
deriving DecidableEq, Repr

/-- The state of one named `logging.Logger`: its severity level and its
attached handlers. A logger never touched by the program has level 0
(`NOTSET`) and no handlers. -/
structure LoggerCore where
  level : Nat
  handlers : List Handler
deriving DecidableEq, Repr

/-- The process-wide `logging` registry: named loggers plus the root
logger's handlers (consulted by `Logger.hasHandlers`). -/
structure LogRegistry where
  named : String → LoggerCore
  rootHandlers : List Handler

/-- The registry at interpreter start: every logger is untouched. -/
def LogRegistry.start : LogRegistry :=
  { named := fun _ => { level := 0, handlers := [] }, rootHandlers := [] }

/-- Replace the core of one named logger. -/
def LogRegistry.set (reg : LogRegistry) (name : String) (core : LoggerCore) :
    LogRegistry :=
  { reg with named := fun n => if n = name then core else reg.named n }

/-- `Logger.hasHandlers()`: true if this logger or an ancestor (for the
dot-free names used here, the root logger) has at least one handler. -/
def LogRegistry.hasHandlers (reg : LogRegistry) (name : String) : Bool :=
  !(reg.named name).handlers.isEmpty || !reg.rootHandlers.isEmpty

/-! ## Python dict keyword arguments as association lists -/

/-- `d[k] = v` on a Python dict: overwrite in place if the key exists,
else append (Python dicts keep the original insertion position on
overwrite). -/
def setField : List (String × String) → String → String → List (String × String)
  | [], k, v => [(k, v)]
  | (k0, v0) :: rest, k, v =>
      if k0 = k then (k0, v) :: rest else (k0, v0) :: setField rest k v

/-- `d.get(k)` on a Python dict (first — and, by the `setField`
discipline, only — binding of the key). -/
def lookupField : List (String × String) → String → Option String
  | [], _ => none
  | (k0, v0) :: rest, k => if k0 = k then some v0 else lookupField rest k

/-! ## In-flight exceptions -/

/-- An in-flight Python exception as seen by `sys.exc_info()`:
its type name, its `str(...)` message, and the rendered stack frames
that `traceback.format_exc()` places between the header and the final
`Type: message` line. -/
structure Exc where
  tyName : String
  msg : String
  frames : String
deriving DecidableEq, Repr

/-- `str(exception_value)` — `str(None) = "None"` when no exception is
active, else the exception's message. -/
def strOfValue : Option Exc → String
  | none => "None"
  | some e => e.msg

/-- `str(exception_type)` — `"None"` when no exception is active, else
the `<class '...'>` rendering of the type. -/
def strOfType : Option Exc → String
  | none => "None"
  | some e => "<class \x27" ++ e.tyName ++ "\x27>"

/-- `traceback.format_exc()` — `"NoneType: None\n"` when no exception is
active, else the traceback header, the frames, and the closing
`Type: message` line. -/
def formatExc : Option Exc → String
  | none => "NoneType: None\n"
  | some e =>
      "Traceback (most recent call last):\n" ++ e.frames ++
        e.tyName ++ ": " ++ e.msg ++ "\n"

/-! ## AsyncLogger (`logger_service.py`, class `AsyncLogger`) -/

/-- The rotating file handler attached by `AsyncLogger._init_logger`:
`RotatingFileHandler(LOGS_DIR / "service_logs" / f"{logger_name}.log",
maxBytes=max_log_size, backupCount=5)` with `CustomJsonFormatter`.
`RotatingFileHandler`'s `mode` argument is not passed, so it takes the
library default `"a"` (append). -/
def serviceFileHandler (loggerName : String) : Handler :=
  { kind := .rotatingFile
    filename := "logs/service_logs/" ++ loggerName ++ ".log"
    mode := "a"
    maxBytes := maxLogSize
    backupCount := 5
    formatter := .customJson }

/-- The console handler attached by `AsyncLogger._init_logger`:
`logging.StreamHandler()` with `logging.Formatter("[%(levelname)s] %(message)s")`. -/
def consoleHandler : Handler :=
  { kind := .stream
    filename := ""
    mode := ""
    maxBytes := 0
    backupCount := 0
    formatter := .plain }

/-- `AsyncLogger._init_logger(logger_name)`: fetch the named logger, set
its level to the configured `LOGGING_LEVEL`, and — only if
`hasHandlers()` is false — attach the rotating file handler and the
console handler. -/
def initLogger (cfg : Nat) (loggerName : String) (reg : LogRegistry) :
    LogRegistry :=
  let base := reg.named loggerName
  let withLevel : LoggerCore := { base with level := cfg }
  if reg.hasHandlers loggerName then
    reg.set loggerName withLevel
  else
    reg.set loggerName
      { withLevel with
          handlers := base.handlers ++ [serviceFileHandler loggerName, consoleHandler] }

/-- The `AsyncLogger` class-level state: the `logging` registry, the
`_instances` cache mapping each logger name to the instance created for
it (instances are identified by creation number), and the next fresh
instance number. -/
structure AsyncState where
  registry : LogRegistry
  instances : List (String × Nat)
  nextId : Nat

/-- Lookup in the `_instances` dict. -/
def lookupInst : List (String × Nat) → String → Option Nat
  | [], _ => none
  | (k0, v0) :: rest, k => if k0 = k then some v0 else lookupInst rest k

/-- The class-level state at interpreter start: empty `_instances`,
untouched `logging` registry. -/
def AsyncState.start : AsyncState :=
  { registry := LogRegistry.start, instances := [], nextId := 0 }

namespace AsyncLogger

/-- `AsyncLogger.__new__(cls, logger_name)` (the body under `cls._lock`):
if no instance exists for the name, create one, run `_init_logger`, and
cache it; in every case return the cached instance for the name. -/
def new (cfg : Nat) (loggerName : String) (st : AsyncState) :
    AsyncState × Nat :=
  match lookupInst st.instances loggerName with
  | some inst => (st, inst)
  | none =>
      let inst := st.nextId
      ({ registry := initLogger cfg loggerName st.registry
         instances := st.instances ++ [(loggerName, inst)]
         nextId := inst + 1 }, inst)

/-- Iterate `AsyncLogger(logger_name)` construction `n` times, keeping
only the state. -/
def newIter (cfg : Nat) (loggerName : String) : Nat → AsyncState → AsyncState
  | 0, st => st
  | n + 1, st => newIter cfg loggerName n (new cfg loggerName st).1

end AsyncLogger

/-! ## Log records and sink writes -/

/-- One log record as handed to the handlers: severity, message, and the
structured `extra` fields. -/
structure Record where
  level : Nat
  msg : String
  fields : List (String × String)
deriving DecidableEq, Repr

/-- `logger.<level>(message, extra=kwargs)` on the underlying
`logging.Logger`: if the record's level passes the logger's level the
record is handed to every attached handler (handler levels are `NOTSET`,
so each handler formats and writes exactly one line); otherwise nothing
is written. Each write is the pair (sink, record). -/
def logWrites (core : LoggerCore) (r : Record) : List (Handler × Record) :=
  if core.level ≤ r.level then core.handlers.map (fun h => (h, r)) else []

namespace AsyncLogger

/-- `AsyncLogger._should_log(level)`:
`getattr(logging, level.upper()) >= getattr(logging, LOGGING_LEVEL)`. -/
def shouldLog (cfg lvl : Nat) : Bool := cfg ≤ lvl

/-- `request_id = request_id_var.get(); if request_id: kwargs["request_id"] = request_id`
— the id is added only when truthy (not `None`, not the empty string). -/
def addRequestId (ctx : Option String) (kwargs : List (String × String)) :
    List (String × String) :=
  match ctx with
  | some rid => if rid = "" then kwargs else setField kwargs "request_id" rid
  | none => kwargs

/-- The structured fields built by `AsyncLogger._log`: the caller's
kwargs, then `request_id` from the context variable when that value is
truthy, then — when `exc_info` is set — the `exception`,
`exception_type` and `traceback` fields from the in-flight exception. -/
def buildFields (ctx : Option String) (excInfo : Bool) (inFlight : Option Exc)
    (kwargs : List (String × String)) : List (String × String) :=
  let kw := addRequestId ctx kwargs
  if excInfo then
    let kw := setField kw "exception" (strOfValue inFlight)
    let kw := setField kw "exception_type" (strOfType inFlight)
    setField kw "traceback" (formatExc inFlight)
  else kw

/-- `AsyncLogger._log(level, message, exc_info, **kwargs)`: no sink
writes when `_should_log` fails; otherwise enrich the kwargs and call
the severity-appropriate logger method, which writes the record once to
each attached sink. -/
def log (cfg : Nat) (core : LoggerCore) (ctx : Option String)
    (inFlight : Option Exc) (excInfo : Bool) (lvl : Nat) (msg : String)
    (kwargs : List (String × String)) : List (Handler × Record) :=
  if shouldLog cfg lvl then
    logWrites core { level := lvl, msg := msg,
                     fields := buildFields ctx excInfo inFlight kwargs }
  else []

/-- `AsyncLogger.info(message, **kwargs)`. -/
def infoLog (cfg : Nat) (core : LoggerCore) (ctx : Option String)
    (inFlight : Option Exc) (msg : String) (kwargs : List (String × String)) :
    List (Handler × Record) :=
  log cfg core ctx inFlight false INFO msg kwargs

/-- `AsyncLogger.debug(message, **kwargs)`. -/
def debugLog (cfg : Nat) (core : LoggerCore) (ctx : Option String)
    (inFlight : Option Exc) (msg : String) (kwargs : List (String × String)) :
    List (Handler × Record) :=
  log cfg core ctx inFlight false DEBUG msg kwargs

/-- `AsyncLogger.warning(message, **kwargs)`. -/
def warningLog (cfg : Nat) (core : LoggerCore) (ctx : Option String)
    (inFlight : Option Exc) (msg : String) (kwargs : List (String × String)) :
    List (Handler × Record) :=
  log cfg core ctx inFlight false WARNING msg kwargs

/-- `AsyncLogger.error(message, **kwargs)`. -/
def errorLog (cfg : Nat) (core : LoggerCore) (ctx : Option String)
    (inFlight : Option Exc) (msg : String) (kwargs : List (String × String)) :
    List (Handler × Record) :=
  log cfg core ctx inFlight false ERROR msg kwargs

/-- `AsyncLogger.critical(message, **kwargs)`. -/
def criticalLog (cfg : Nat) (core : LoggerCore) (ctx : Option String)
    (inFlight : Option Exc) (msg : String) (kwargs : List (String × String)) :
    List (Handler × Record) :=
  log cfg core ctx inFlight false CRITICAL msg kwargs

/-- `AsyncLogger.exception(message, **kwargs)` =
`_log("ERROR", message, exc_info=True, **kwargs)`. -/
def exceptionLog (cfg : Nat) (core : LoggerCore) (ctx : Option String)
    (inFlight : Option Exc) (msg : String) (kwargs : List (String × String)) :
    List (Handler × Record) :=
  log cfg core ctx inFlight true ERROR msg kwargs

end AsyncLogger

/-! ## Request logging middleware (`logger_service.py`, `request_logger`) -/

/-- The inbound HTTP request as the middleware sees it: its headers, the
client address (`request.client` may be absent), the method and the URL. -/
structure Request where
  headers : List (String × String)
  client : Option String
  method : String
  url : String

/-- The downstream response; the middleware only reads `status_code`. -/
structure Response where
  status_code : Nat
deriving DecidableEq, Repr

/-- `request.headers.get(key)` (first matching header). -/
def headersGet (hs : List (String × String)) (k : String) : Option String :=
  (hs.find? (fun p => p.1 = k)).map Prod.snd

/-- The observable actions of one `request_logger` invocation, in program
order: storing the correlation id in `request_id_var`, emitting a log
record via `logger.info` (level, message, `extra` fields), and awaiting
the downstream handler. -/
inductive Event where
  | setCtx (rid : String)
  | emit (level : Nat) (msg : String) (extra : List (String × String))
  | callNext
deriving DecidableEq, Repr

/-- The rotating file handler attached by `request_logger`:
`RotatingFileHandler(filename=LOGS_DIR / "request_logs" / "request.log",
mode="w", maxBytes=max_log_size, backupCount=5)` with
`jsonlogger.JsonFormatter(LOGGING_FORMAT)`. -/
def reqFileHandler : Handler :=
  { kind := .rotatingFile
    filename := "logs/request_logs/request.log"
    mode := "w"
    maxBytes := maxLogSize
    backupCount := 5
    formatter := .json }

/-- The `"Received request"` record's `extra` fields. -/
def receivedExtra (rid ip method url : String) : List (String × String) :=
  [("request_id", rid), ("ip_address", ip), ("method", method), ("url", url)]

/-- The `"Response sent"` record's `extra` fields (`status_code` rendered
as its decimal string). -/
def sentExtra (rid ip : String) (status : Nat) : List (String × String) :=
  [("request_id", rid), ("ip_address", ip), ("status_code", toString status)]

/-- `request_logger(request, call_next)`.  `freshUuid` is the token
`str(uuid4())` would produce for this invocation; `nxt` is the
downstream handler, which either returns a response or raises (modelled
as `Except`).  The result is the updated `logging` registry, the ordered
list of observable events, and the outcome: the downstream response, or
the downstream error propagated untouched (the `await call_next` line
sits in no `try` block, so a raise skips the second `logger.info`). -/
def requestLogger {E : Type} (cfg : Nat) (freshUuid : String)
    (reg : LogRegistry) (req : Request) (nxt : Request → Except E Response) :
    LogRegistry × List Event × Except E Response :=
  let core := reg.named "request_logger"
  let core : LoggerCore := { core with level := cfg }
  let core : LoggerCore :=
    if core.handlers.any (fun h => h.kind = HandlerKind.rotatingFile) then core
    else { core with handlers := core.handlers ++ [reqFileHandler] }
  let reg1 := reg.set "request_logger" core
  let clientIp := req.client.getD "Unknown IP"
  let requestId := (headersGet req.headers "X-Request-ID").getD freshUuid
  let received :=
    Event.emit INFO "Received request"
      (receivedExtra requestId clientIp req.method req.url)
  match nxt req with
  | Except.error e =>
      (reg1, [Event.setCtx requestId, received, Event.callNext],
       Except.error e)
  | Except.ok resp =>
      (reg1,
       [Event.setCtx requestId, received, Event.callNext,
        Event.emit INFO "Response sent"
          (sentExtra requestId clientIp resp.status_code)],
       Except.ok resp)

/-- What opening a file with a given mode does to its existing content:
`"w"` truncates, `"a"` (and any other mode used here) preserves it. -/
def openEffect (mode : String) (existing : String) : String :=
  if mode = "w" then "" else existing

/-! ## Database lifecycle (`db_service.py`) -/

/-- The module-level `db_client` variable: absent, or a live client
handle (handles are identified by the number of the `AsyncIOMotorClient`
construction that produced them). -/
abbrev DbState := Option Nat

/-- `init_db()`.  `fresh` identifies the client a constructor call would
produce.  `if not db_client:` creates and returns the new handle; the
implicit fall-through on the other branch returns `None`. -/
def init_db (st : DbState) (fresh : Nat) : DbState × Option Nat :=
  match st with
  | none => (some fresh, some fresh)
  | some h => (some h, none)

/-- `close_db()`: `if db_client: db_client.close(); db_client = None` —
a no-op when the handle is already absent. -/
def close_db (st : DbState) : DbState :=
  match st with
  | some _ => none
  | none => none

/-- `db_status()`: `True` iff the handle is present. -/
def db_status (st : DbState) : Bool :=
  match st with
  | some _ => true
  | none => false

/-! ## Two concurrently handled requests (contextvar isolation)

Starlette runs each request's middleware stack in its own asyncio task,
and per the `contextvars` contract each task works in its own copy of
the context: a `request_id_var.set` in one task is invisible to the
other.  The model below runs two instances of the middleware's
logging steps under an arbitrary cooperative schedule.  Each task has
its own context cell; the single suspension point is the
`await call_next(request)` between the two `logger.info` calls, so a
task's first step (derive id, set the context variable, emit
`"Received request"`) is atomic, and its second step (emit
`"Response sent"`) is atomic. -/

/-- Per-request input: the optional `X-Request-ID` header value and the
token `str(uuid4())` yields for this request. -/
structure TaskInput where
  header : Option String
  fresh : String

/-- The correlation id `request_logger` derives for this request. -/
def ridOf (inp : TaskInput) : String := inp.header.getD inp.fresh

/-- One task's progress: program counter (0 = not started, 1 = waiting
on the downstream handler, 2 = done), its own copy of `request_id_var`,
and the local `request_id` variable. -/
structure TaskState where
  pc : Nat
  ctx : Option String
  rid : String
deriving DecidableEq, Repr

/-- A record emitted by one task: the message, the `request_id` field it
carries (taken from the task's local variable), and the value of the
task's context variable at emission time (what a formatter reading
`request_id_var` during this write would observe). -/
structure MRecord where
  msg : String
  rid : String
  ctxSeen : Option String
deriving DecidableEq, Repr

def TaskState.start : TaskState := { pc := 0, ctx := none, rid := "" }

/-- One scheduling quantum of a task: run it from its current suspension
point to the next one, returning the new state and the records emitted. -/
def taskStep (inp : TaskInput) (ts : TaskState) : TaskState × List MRecord :=
  match ts.pc with
  | 0 =>
      let rid := ridOf inp
      ({ pc := 1, ctx := some rid, rid := rid },
       [{ msg := "Received request", rid := rid, ctxSeen := some rid }])
  | 1 =>
      ({ ts with pc := 2 },
       [{ msg := "Response sent", rid := ts.rid, ctxSeen := ts.ctx }])
  | _ => (ts, [])

/-- The state of the two-request system: both tasks and the interleaved
trace of emitted records, each tagged with the task (`false` = first
request, `true` = second) that emitted it. -/
structure SysState where
  t0 : TaskState
  t1 : TaskState
  trace : List (Bool × MRecord)
deriving DecidableEq, Repr

def SysState.start : SysState :=
  { t0 := TaskState.start, t1 := TaskState.start, trace := [] }

/-- Give one quantum to the scheduled task. -/
def sysStep (i0 i1 : TaskInput) (s : SysState) (which : Bool) : SysState :=
  if which then
    { s with t1 := (taskStep i1 s.t1).1
             trace := s.trace ++ (taskStep i1 s.t1).2.map (fun r => (true, r)) }
  else
    { s with t0 := (taskStep i0 s.t0).1
             trace := s.trace ++ (taskStep i0 s.t0).2.map (fun r => (false, r)) }

/-- Run the two requests under an arbitrary cooperative schedule. -/
def sysRun (i0 i1 : TaskInput) (sched : List Bool) : SysState :=
  sched.foldl (sysStep i0 i1) SysState.start

/-! ## Helper lemmas -/

theorem lookupField_setField_self (l : List (String × String)) (k v : String) :
    lookupField (setField l k v) k = some v := by
  induction l with
  | nil => simp [setField, lookupField]
  | cons p rest ih =>
      by_cases h : p.1 = k <;> simp [setField, lookupField, h, ih]

theorem lookupField_setField_ne (l : List (String × String)) (k k2 v : String)
    (h : k2 ≠ k) : lookupField (setField l k v) k2 = lookupField l k2 := by
  induction l with
  | nil =>
      simp [setField, lookupField]
      exact fun e => h (Eq.symm e)
  | cons p rest ih =>
      by_cases hp : p.1 = k <;>
        by_cases hp2 : p.1 = k2 <;>
          simp_all [setField, lookupField]

theorem lookupInst_append_self (l : List (String × Nat)) (name : String) (i : Nat)
    (h : lookupInst l name = none) :
    lookupInst (l ++ [(name, i)]) name = some i := by
  induction l with
  | nil => simp [lookupInst]
  | cons p rest ih =>
      by_cases hp : p.1 = name
      · simp [lookupInst, hp] at h
      · simp [lookupInst, hp] at h ⊢
        exact ih h

/-- Once an instance is cached for a name, `AsyncLogger.__new__` returns
the cached instance and leaves the whole class state untouched. -/
theorem AsyncLogger.new_cached (cfg : Nat) (name : String) (st : AsyncState)
    (i : Nat) (h : lookupInst st.instances name = some i) :
    AsyncLogger.new cfg name st = (st, i) := by
  simp [AsyncLogger.new, h]

/-- A string with a non-empty prefix is non-empty. -/
theorem append_left_ne_empty (s t : String) (h : s ≠ "") : s ++ t ≠ "" := by
  intro he
  apply h
  have hd := congrArg String.data he
  simp only [String.data_append] at hd
  rcases List.append_eq_nil.mp hd with ⟨h1, _⟩
  cases s
  simp_all

/-- `AsyncLogger._log` below the threshold writes nothing; at or above
it, it hands the enriched record once to each attached sink (in
attachment order), provided the underlying logger's level is the
configured one, as `_init_logger` ensures. -/
theorem AsyncLogger.log_threshold (cfg : Nat) (core : LoggerCore)
    (ctx : Option String) (inFlight : Option Exc) (excInfo : Bool)
    (lvl : Nat) (msg : String) (kwargs : List (String × String))
    (hlvl : core.level = cfg) :
    (lvl < cfg → AsyncLogger.log cfg core ctx inFlight excInfo lvl msg kwargs = []) ∧
    (cfg ≤ lvl →
      (AsyncLogger.log cfg core ctx inFlight excInfo lvl msg kwargs).map Prod.fst
        = core.handlers) := by
  constructor
  · intro hlt
    simp [AsyncLogger.log, AsyncLogger.shouldLog, Nat.not_le.mpr hlt]
  · intro hle
    have hb : AsyncLogger.shouldLog cfg lvl = true := decide_eq_true hle
    simp [AsyncLogger.log, hb, logWrites, hlvl, hle, List.map_map]
    exact List.map_id core.handlers

/-- A trace entry is well-attributed: its `request_id` and the context
value visible at emission both belong to the task that emitted it. -/
def goodRec (i0 i1 : TaskInput) (p : Bool × MRecord) : Prop :=
  p.2.rid = ridOf (if p.1 then i1 else i0) ∧
  p.2.ctxSeen = some (ridOf (if p.1 then i1 else i0))

/-- A task either has not started, or its local `request_id` and its own
context cell hold its own correlation id. -/
def goodTask (inp : TaskInput) (ts : TaskState) : Prop :=
  ts.pc = 0 ∨ (ts.rid = ridOf inp ∧ ts.ctx = some (ridOf inp))

/-- The system invariant: both tasks and every trace entry are good. -/
def goodSys (i0 i1 : TaskInput) (s : SysState) : Prop :=
  goodTask i0 s.t0 ∧ goodTask i1 s.t1 ∧ ∀ p ∈ s.trace, goodRec i0 i1 p

theorem taskStep_good (inp : TaskInput) (ts : TaskState) (h : goodTask inp ts) :
    goodTask inp (taskStep inp ts).1 ∧
      ∀ r ∈ (taskStep inp ts).2, r.rid = ridOf inp ∧ r.ctxSeen = some (ridOf inp) := by
  rcases hpc : ts.pc with _ | n
  · simp [taskStep, hpc, goodTask]
  · rcases h with h0 | ⟨hr, hc⟩
    · omega
    · rcases n with _ | m
      · simp [taskStep, hpc, goodTask, hr, hc]
      · simp [taskStep, hpc, goodTask, hr, hc]

theorem sysStep_good (i0 i1 : TaskInput) (s : SysState) (which : Bool)
    (h : goodSys i0 i1 s) : goodSys i0 i1 (sysStep i0 i1 s which) := by
  obtain ⟨h0, h1, htr⟩ := h
  cases which
  · obtain ⟨hs, hr⟩ := taskStep_good i0 s.t0 h0
    refine ⟨hs, h1, ?_⟩
    intro p hp
    have hp2 : p ∈ s.trace ++ (taskStep i0 s.t0).2.map (fun r => (false, r)) := by
      simpa [sysStep] using hp
    rcases List.mem_append.mp hp2 with hp3 | hp3
    · exact htr p hp3
    · obtain ⟨r, hr2, rfl⟩ := List.mem_map.mp hp3
      exact ⟨(hr r hr2).1, (hr r hr2).2⟩
  · obtain ⟨hs, hr⟩ := taskStep_good i1 s.t1 h1
    refine ⟨h0, hs, ?_⟩
    intro p hp
    have hp2 : p ∈ s.trace ++ (taskStep i1 s.t1).2.map (fun r => (true, r)) := by
      simpa [sysStep] using hp
    rcases List.mem_append.mp hp2 with hp3 | hp3
    · exact htr p hp3
    · obtain ⟨r, hr2, rfl⟩ := List.mem_map.mp hp3
      exact ⟨(hr r hr2).1, (hr r hr2).2⟩

theorem sysRun_good (i0 i1 : TaskInput) (sched : List Bool) :
    goodSys i0 i1 (sysRun i0 i1 sched) := by
  have hstart : goodSys i0 i1 SysState.start := by
    refine ⟨Or.inl rfl, Or.inl rfl, ?_⟩
    intro p hp
    simp [SysState.start] at hp
  have hfold : ∀ (l : List Bool) (s : SysState), goodSys i0 i1 s →
      goodSys i0 i1 (l.foldl (sysStep i0 i1) s) := by
    intro l
    induction l with
    | nil => intro s hs; exact hs
    | cons b rest ih =>
        intro s hs
        exact ih _ (sysStep_good i0 i1 s b hs)
  exact hfold sched SysState.start hstart

/-- A logger with no handlers (`hasHandlers` false) gets exactly the
service file handler and the console handler from `_init_logger`. -/
theorem initLogger_fresh (cfg : Nat) (name : String) (reg : LogRegistry)
    (h : reg.hasHandlers name = false) :
    (initLogger cfg name reg).named name =
      { level := cfg, handlers := [serviceFileHandler name, consoleHandler] } := by
  have hbase : (reg.named name).handlers = [] := by
    rcases hb : (reg.named name).handlers with _ | ⟨a, l⟩
    · rfl
    · exfalso
      have h2 := h
      simp [LogRegistry.hasHandlers, hb] at h2
  simp [initLogger, h, LogRegistry.set, hbase]

/-- The three exception fields written by `_log` are all retrievable
afterwards, whatever the kwargs held before. -/
theorem lookup_exc_fields (l : List (String × String)) (v t tb : String) :
    lookupField (setField (setField (setField l "exception" v)
        "exception_type" t) "traceback" tb) "exception" = some v ∧
    lookupField (setField (setField (setField l "exception" v)
        "exception_type" t) "traceback" tb) "exception_type" = some t ∧
    lookupField (setField (setField (setField l "exception" v)
        "exception_type" t) "traceback" tb) "traceback" = some tb := by
  refine ⟨?_, ?_, ?_⟩
  · rw [lookupField_setField_ne _ _ _ _ (by decide),
      lookupField_setField_ne _ _ _ _ (by decide), lookupField_setField_self]
  · rw [lookupField_setField_ne _ _ _ _ (by decide), lookupField_setField_self]
  · exact lookupField_setField_self _ _ _

/-! ## Claims -/

/-- Claim C7: starting from any database-handle state, calling `init()`
twice in a row leaves exactly one live handle and the second call
creates nothing (the state is untouched and no new client is returned);
`close()` after `init()` makes `status()` return `false`; and `close()`
on an absent handle is a no-op (a total transition back to the absent
state — the body guards on `if db_client:`, so nothing is invoked and
nothing can raise). -/
theorem db_lifecycle_transitions (st : DbState) (fresh1 fresh2 : Nat) :
    (init_db (init_db st fresh1).1 fresh2).1 = (init_db st fresh1).1 ∧
    ((init_db (init_db st fresh1).1 fresh2).1).isSome = true ∧
    (init_db (init_db st fresh1).1 fresh2).2 = none ∧
    db_status (close_db (init_db st fresh1).1) = false ∧
    close_db none = none := by
  cases st <;> simp [init_db, close_db, db_status]

/-- Claim C9: when a handle already exists, a further `init_db()` call
falls off the `if not db_client:` branch and returns `None` — not the
existing handle — while only the first, creating call returns the
client it constructed. -/
theorem init_db_second_call_returns_none (h fresh fresh0 : Nat) :
    init_db (some h) fresh = (some h, none) ∧
    init_db none fresh0 = (some fresh0, some fresh0) := by
  simp [init_db]

/-- Claim C4: when the downstream handler returns a response, the
middleware emits exactly two INFO records — `"Received request"` with
the request id, client ip, method and url strictly before the downstream
call, then `"Response sent"` with the same id, the same ip and the
response's status code strictly after it — and returns the downstream
response unchanged. -/
theorem requestLogger_two_records {E : Type} (cfg : Nat) (freshUuid : String)
    (reg : LogRegistry) (req : Request) (nxt : Request → Except E Response)
    (resp : Response) (hok : nxt req = Except.ok resp) :
    (requestLogger cfg freshUuid reg req nxt).2.1 =
      [Event.setCtx ((headersGet req.headers "X-Request-ID").getD freshUuid),
       Event.emit INFO "Received request"
         (receivedExtra ((headersGet req.headers "X-Request-ID").getD freshUuid)
           (req.client.getD "Unknown IP") req.method req.url),
       Event.callNext,
       Event.emit INFO "Response sent"
         (sentExtra ((headersGet req.headers "X-Request-ID").getD freshUuid)
           (req.client.getD "Unknown IP") resp.status_code)] ∧
    (requestLogger cfg freshUuid reg req nxt).2.2 = Except.ok resp := by
  simp [requestLogger, hok]

/-- The spec's example request: header `X-Request-ID: abc-123`, `GET` on
`/health` from client `10.0.0.5`. -/
def exReq : Request :=
  { headers := [("X-Request-ID", "abc-123")], client := some "10.0.0.5",
    method := "GET", url := "http://testserver/health" }

/-- A downstream handler that returns status 200. -/
def exNxtOk : Request → Except String Response :=
  fun _ => Except.ok { status_code := 200 }

/-- A downstream handler that raises. -/
def exNxtRaise : Request → Except String Response :=
  fun _ => Except.error "RuntimeError: downstream failed"

/-- Witness for C4: the spec's own example — header `X-Request-ID:
abc-123`, `GET` on `/health` from `10.0.0.5`, downstream status 200. -/
theorem requestLogger_two_records_witness :
    exNxtOk exReq = Except.ok { status_code := 200 } ∧
    ((requestLogger 20 "fresh-uuid" LogRegistry.start exReq exNxtOk).2.1 =
      [Event.setCtx ((headersGet exReq.headers "X-Request-ID").getD "fresh-uuid"),
       Event.emit INFO "Received request"
         (receivedExtra ((headersGet exReq.headers "X-Request-ID").getD "fresh-uuid")
           (exReq.client.getD "Unknown IP") exReq.method exReq.url),
       Event.callNext,
       Event.emit INFO "Response sent"
         (sentExtra ((headersGet exReq.headers "X-Request-ID").getD "fresh-uuid")
           (exReq.client.getD "Unknown IP") 200)] ∧
     (requestLogger 20 "fresh-uuid" LogRegistry.start exReq exNxtOk).2.2 =
      Except.ok { status_code := 200 }) :=
  ⟨rfl, requestLogger_two_records 20 "fresh-uuid" LogRegistry.start
    exReq exNxtOk { status_code := 200 } rfl⟩

/-- Claim C5: the middleware's correlation id is the `X-Request-ID`
header value when present and the freshly generated token otherwise
(`Option.getD` on the header lookup), and storing it in the correlation
context (`request_id_var.set`) is the first observable event — every
emitted record comes strictly later. -/
theorem requestLogger_correlation_id {E : Type} (cfg : Nat)
    (freshUuid : String) (reg : LogRegistry) (req : Request)
    (nxt : Request → Except E Response) :
    (requestLogger cfg freshUuid reg req nxt).2.1.head? =
      some (Event.setCtx ((headersGet req.headers "X-Request-ID").getD freshUuid)) ∧
    (∀ v, headersGet req.headers "X-Request-ID" = some v →
      (headersGet req.headers "X-Request-ID").getD freshUuid = v) ∧
    (headersGet req.headers "X-Request-ID" = none →
      (headersGet req.headers "X-Request-ID").getD freshUuid = freshUuid) ∧
    (∀ i lvl m ex, (requestLogger cfg freshUuid reg req nxt).2.1.get? i =
        some (Event.emit lvl m ex) → 0 < i) := by
  rcases hnxt : nxt req with e | resp <;>
    refine ⟨by simp [requestLogger, hnxt], fun v hv => by simp [hv],
      fun hv => by simp [hv], ?_⟩ <;>
    · intro i lvl m ex hi
      rcases i with _ | j
      · simp [requestLogger, hnxt] at hi
      · omega

/-- Witness for C5, at the spec's example request (header present) with
a raising downstream handler. -/
theorem requestLogger_correlation_id_witness :
    (requestLogger 20 "fresh-uuid" LogRegistry.start exReq exNxtRaise).2.1.head? =
      some (Event.setCtx ((headersGet exReq.headers "X-Request-ID").getD "fresh-uuid")) ∧
    (∀ v, headersGet exReq.headers "X-Request-ID" = some v →
      (headersGet exReq.headers "X-Request-ID").getD "fresh-uuid" = v) ∧
    (headersGet exReq.headers "X-Request-ID" = none →
      (headersGet exReq.headers "X-Request-ID").getD "fresh-uuid" = "fresh-uuid") ∧
    (∀ i lvl m ex,
      (requestLogger 20 "fresh-uuid" LogRegistry.start exReq exNxtRaise).2.1.get? i =
        some (Event.emit lvl m ex) → 0 < i) :=
  requestLogger_correlation_id 20 "fresh-uuid" LogRegistry.start exReq exNxtRaise

/-- Claim C6: when the downstream handler raises, the middleware
propagates the failure unmodified (the returned outcome is the very
error, with no retry and no suppression), after having emitted the
`"Received request"` record and without ever emitting `"Response sent"`
— the full event list is the context store, the received record, and
the downstream call. -/
theorem requestLogger_error_propagates {E : Type} (cfg : Nat)
    (freshUuid : String) (reg : LogRegistry) (req : Request)
    (nxt : Request → Except E Response) (e : E)
    (herr : nxt req = Except.error e) :
    (requestLogger cfg freshUuid reg req nxt).2.1 =
      [Event.setCtx ((headersGet req.headers "X-Request-ID").getD freshUuid),
       Event.emit INFO "Received request"
         (receivedExtra ((headersGet req.headers "X-Request-ID").getD freshUuid)
           (req.client.getD "Unknown IP") req.method req.url),
       Event.callNext] ∧
    (requestLogger cfg freshUuid reg req nxt).2.2 = Except.error e := by
  simp [requestLogger, herr]

/-- Witness for C6, at the spec's example request with a raising
downstream handler. -/
theorem requestLogger_error_propagates_witness :
    exNxtRaise exReq = Except.error "RuntimeError: downstream failed" ∧
    ((requestLogger 20 "fresh-uuid" LogRegistry.start exReq exNxtRaise).2.1 =
      [Event.setCtx ((headersGet exReq.headers "X-Request-ID").getD "fresh-uuid"),
       Event.emit INFO "Received request"
         (receivedExtra ((headersGet exReq.headers "X-Request-ID").getD "fresh-uuid")
           (exReq.client.getD "Unknown IP") exReq.method exReq.url),
       Event.callNext] ∧
     (requestLogger 20 "fresh-uuid" LogRegistry.start exReq exNxtRaise).2.2 =
      Except.error "RuntimeError: downstream failed") :=
  ⟨rfl, requestLogger_error_propagates 20 "fresh-uuid" LogRegistry.start
    exReq exNxtRaise "RuntimeError: downstream failed" rfl⟩

/-- Claim C1: from a state in which a name has no cached instance and
its underlying logger no handlers, constructing `AsyncLogger(name)`
once creates the instance; every later construction — after any number
of further constructions — returns that same instance and leaves the
class state (instances cache and `logging` registry, hence also the
instance itself) completely unchanged, and the name's underlying logger
holds exactly one rotating file sink and exactly one console sink. -/
theorem asyncLogger_singleton_sinks (cfg : Nat) (name : String)
    (st0 : AsyncState)
    (hinst : lookupInst st0.instances name = none)
    (hhnd : st0.registry.hasHandlers name = false) :
    (∀ n, AsyncLogger.new cfg name
        (AsyncLogger.newIter cfg name n (AsyncLogger.new cfg name st0).1) =
      ((AsyncLogger.new cfg name st0).1, (AsyncLogger.new cfg name st0).2)) ∧
    ((AsyncLogger.new cfg name st0).1.registry.named name).handlers =
      [serviceFileHandler name, consoleHandler] ∧
    (((AsyncLogger.new cfg name st0).1.registry.named name).handlers.filter
      (fun h => h.kind = HandlerKind.rotatingFile)).length = 1 ∧
    (((AsyncLogger.new cfg name st0).1.registry.named name).handlers.filter
      (fun h => h.kind = HandlerKind.stream)).length = 1 := by
  have hnew : AsyncLogger.new cfg name st0 =
      ({ registry := initLogger cfg name st0.registry
         instances := st0.instances ++ [(name, st0.nextId)]
         nextId := st0.nextId + 1 }, st0.nextId) := by
    simp [AsyncLogger.new, hinst]
  have hlook : lookupInst (AsyncLogger.new cfg name st0).1.instances name =
      some st0.nextId := by
    rw [hnew]
    exact lookupInst_append_self _ _ _ hinst
  have hsnd : (AsyncLogger.new cfg name st0).2 = st0.nextId := by rw [hnew]
  have hfix : AsyncLogger.new cfg name (AsyncLogger.new cfg name st0).1 =
      ((AsyncLogger.new cfg name st0).1, (AsyncLogger.new cfg name st0).2) := by
    rw [AsyncLogger.new_cached cfg name _ _ hlook, hsnd]
  have hfst : (AsyncLogger.new cfg name (AsyncLogger.new cfg name st0).1).1 =
      (AsyncLogger.new cfg name st0).1 := congrArg Prod.fst hfix
  have hiter : ∀ n, AsyncLogger.newIter cfg name n (AsyncLogger.new cfg name st0).1 =
      (AsyncLogger.new cfg name st0).1 := by
    intro n
    induction n with
    | zero => rfl
    | succ m ih =>
        show AsyncLogger.newIter cfg name m
          (AsyncLogger.new cfg name (AsyncLogger.new cfg name st0).1).1 = _
        rw [hfst]
        exact ih
  have hreg : (AsyncLogger.new cfg name st0).1.registry.named name =
      { level := cfg, handlers := [serviceFileHandler name, consoleHandler] } := by
    rw [hnew]
    exact initLogger_fresh cfg name st0.registry hhnd
  refine ⟨?_, ?_, ?_, ?_⟩
  · intro n
    rw [hiter n]
    exact hfix
  · rw [hreg]
  · rw [hreg]
    simp [serviceFileHandler, consoleHandler, List.filter]
  · rw [hreg]
    simp [serviceFileHandler, consoleHandler, List.filter]

/-- Witness for C1 at the interpreter-start state and the default
logger name `"service"` with the default level `INFO`. -/
theorem asyncLogger_singleton_sinks_witness :
    lookupInst AsyncState.start.instances "service" = none ∧
    AsyncState.start.registry.hasHandlers "service" = false ∧
    ((∀ n, AsyncLogger.new 20 "service"
        (AsyncLogger.newIter 20 "service" n (AsyncLogger.new 20 "service" AsyncState.start).1) =
      ((AsyncLogger.new 20 "service" AsyncState.start).1,
       (AsyncLogger.new 20 "service" AsyncState.start).2)) ∧
    ((AsyncLogger.new 20 "service" AsyncState.start).1.registry.named "service").handlers =
      [serviceFileHandler "service", consoleHandler] ∧
    (((AsyncLogger.new 20 "service" AsyncState.start).1.registry.named "service").handlers.filter
      (fun h => h.kind = HandlerKind.rotatingFile)).length = 1 ∧
    (((AsyncLogger.new 20 "service" AsyncState.start).1.registry.named "service").handlers.filter
      (fun h => h.kind = HandlerKind.stream)).length = 1) :=
  ⟨rfl, rfl, asyncLogger_singleton_sinks 20 "service" AsyncState.start rfl rfl⟩

/-- Claim C2: for each leveled call (`info`, `debug`, `warning`,
`error`, `critical`) on a logger whose underlying level is the
configured one (as `_init_logger` ensures), a call whose severity is
below the configured minimum performs zero sink writes, and a call at
or above it produces exactly one formatted line on each attached sink
(the written sinks, in order and with multiplicity, are exactly the
attached handlers). -/
theorem leveled_calls_threshold (cfg : Nat) (core : LoggerCore)
    (ctx : Option String) (inFlight : Option Exc) (msg : String)
    (kwargs : List (String × String)) (hlvl : core.level = cfg) :
    ((INFO < cfg → AsyncLogger.infoLog cfg core ctx inFlight msg kwargs = []) ∧
     (cfg ≤ INFO →
       (AsyncLogger.infoLog cfg core ctx inFlight msg kwargs).map Prod.fst =
         core.handlers)) ∧
    ((DEBUG < cfg → AsyncLogger.debugLog cfg core ctx inFlight msg kwargs = []) ∧
     (cfg ≤ DEBUG →
       (AsyncLogger.debugLog cfg core ctx inFlight msg kwargs).map Prod.fst =
         core.handlers)) ∧
    ((WARNING < cfg → AsyncLogger.warningLog cfg core ctx inFlight msg kwargs = []) ∧
     (cfg ≤ WARNING →
       (AsyncLogger.warningLog cfg core ctx inFlight msg kwargs).map Prod.fst =
         core.handlers)) ∧
    ((ERROR < cfg → AsyncLogger.errorLog cfg core ctx inFlight msg kwargs = []) ∧
     (cfg ≤ ERROR →
       (AsyncLogger.errorLog cfg core ctx inFlight msg kwargs).map Prod.fst =
         core.handlers)) ∧
    ((CRITICAL < cfg → AsyncLogger.criticalLog cfg core ctx inFlight msg kwargs = []) ∧
     (cfg ≤ CRITICAL →
       (AsyncLogger.criticalLog cfg core ctx inFlight msg kwargs).map Prod.fst =
         core.handlers)) :=
  ⟨AsyncLogger.log_threshold cfg core ctx inFlight false INFO msg kwargs hlvl,
   AsyncLogger.log_threshold cfg core ctx inFlight false DEBUG msg kwargs hlvl,
   AsyncLogger.log_threshold cfg core ctx inFlight false WARNING msg kwargs hlvl,
   AsyncLogger.log_threshold cfg core ctx inFlight false ERROR msg kwargs hlvl,
   AsyncLogger.log_threshold cfg core ctx inFlight false CRITICAL msg kwargs hlvl⟩

/-- Witness for C2 at the freshly initialized `"service"` logger and
the default configured level `INFO` (20): `debug` is below threshold,
the other four are at or above it. -/
theorem leveled_calls_threshold_witness :
    ({ level := 20, handlers := [serviceFileHandler "service", consoleHandler] } :
      LoggerCore).level = 20 ∧
    (AsyncLogger.debugLog 20
        { level := 20, handlers := [serviceFileHandler "service", consoleHandler] }
        none none "m" [] = []) ∧
    ((AsyncLogger.infoLog 20
        { level := 20, handlers := [serviceFileHandler "service", consoleHandler] }
        none none "m" []).map Prod.fst =
      [serviceFileHandler "service", consoleHandler]) ∧
    ((AsyncLogger.criticalLog 20
        { level := 20, handlers := [serviceFileHandler "service", consoleHandler] }
        none none "m" []).map Prod.fst =
      [serviceFileHandler "service", consoleHandler]) :=
  ⟨rfl,
   (leveled_calls_threshold 20
      { level := 20, handlers := [serviceFileHandler "service", consoleHandler] }
      none none "m" [] rfl).2.1.1 (by decide),
   (leveled_calls_threshold 20
      { level := 20, handlers := [serviceFileHandler "service", consoleHandler] }
      none none "m" [] rfl).1.2 (by decide),
   (leveled_calls_threshold 20
      { level := 20, handlers := [serviceFileHandler "service", consoleHandler] }
      none none "m" [] rfl).2.2.2.2.2 (by decide)⟩

/-- Claim C3 (amended): `exception(message)` logs at ERROR; provided
ERROR clears the configured threshold, the produced record — written
once to each attached sink — always carries the three fields
`exception`, `exception_type` and `traceback`.  While an exception is
in flight, `exception_type` and `traceback` are non-empty, and
`exception` holds `str(value)`, non-empty whenever the exception's
string form is non-empty.  With no active exception the three fields
are not absent or empty: they hold the placeholder strings `"None"`,
`"None"` and `"NoneType: None\n"` that `str(None)` and
`traceback.format_exc()` produce. -/
theorem exception_record_fields (cfg : Nat) (core : LoggerCore)
    (ctx : Option String) (inFlight : Option Exc) (msg : String)
    (kwargs : List (String × String)) (hlvl : core.level = cfg)
    (hthr : cfg ≤ ERROR) :
    (AsyncLogger.exceptionLog cfg core ctx inFlight msg kwargs).map Prod.fst =
      core.handlers ∧
    ∀ w ∈ AsyncLogger.exceptionLog cfg core ctx inFlight msg kwargs,
      lookupField w.2.fields "exception" = some (strOfValue inFlight) ∧
      lookupField w.2.fields "exception_type" = some (strOfType inFlight) ∧
      lookupField w.2.fields "traceback" = some (formatExc inFlight) ∧
      strOfType inFlight ≠ "" ∧
      formatExc inFlight ≠ "" ∧
      (inFlight = none → strOfValue inFlight = "None") ∧
      (∀ e, inFlight = some e → e.msg ≠ "" → strOfValue inFlight ≠ "") := by
  refine ⟨(AsyncLogger.log_threshold cfg core ctx inFlight true ERROR msg
    kwargs hlvl).2 hthr, ?_⟩
  intro w hw
  have hb : AsyncLogger.shouldLog cfg ERROR = true := decide_eq_true hthr
  have hw2 : w ∈ logWrites core
      { level := ERROR, msg := msg,
        fields := AsyncLogger.buildFields ctx true inFlight kwargs } := by
    simpa [AsyncLogger.exceptionLog, AsyncLogger.log, hb] using hw
  have hcl : core.level ≤ ERROR := hlvl ▸ hthr
  rw [logWrites, if_pos hcl] at hw2
  obtain ⟨h, hh, rfl⟩ := List.mem_map.mp hw2
  have hbf : AsyncLogger.buildFields ctx true inFlight kwargs =
      setField (setField (setField (AsyncLogger.addRequestId ctx kwargs)
        "exception" (strOfValue inFlight))
        "exception_type" (strOfType inFlight))
        "traceback" (formatExc inFlight) := rfl
  have hfields := lookup_exc_fields (AsyncLogger.addRequestId ctx kwargs)
    (strOfValue inFlight) (strOfType inFlight) (formatExc inFlight)
  refine ⟨?_, ?_, ?_, ?_, ?_, ?_, ?_⟩
  · show lookupField (AsyncLogger.buildFields ctx true inFlight kwargs) "exception" = _
    rw [hbf]
    exact hfields.1
  · show lookupField (AsyncLogger.buildFields ctx true inFlight kwargs) "exception_type" = _
    rw [hbf]
    exact hfields.2.1
  · show lookupField (AsyncLogger.buildFields ctx true inFlight kwargs) "traceback" = _
    rw [hbf]
    exact hfields.2.2
  · rcases inFlight with _ | e
    · decide
    · exact append_left_ne_empty _ _
        (append_left_ne_empty "<class \x27" e.tyName (by decide))
  · rcases inFlight with _ | e
    · decide
    · exact append_left_ne_empty _ _
        (append_left_ne_empty _ _
          (append_left_ne_empty _ _
            (append_left_ne_empty _ _
              (append_left_ne_empty "Traceback (most recent call last):\n"
                e.frames (by decide)))))
  · intro he
    subst he
    rfl
  · intro e he hm
    subst he
    simpa [strOfValue] using hm

/-- Counterexample for C3 as stated: with no active exception,
`exception("boom")` still produces a record whose `exception` field is
present and holds the non-empty string `"None"` — it is neither absent
nor empty. -/
theorem exception_no_active_cex :
    (AsyncLogger.exceptionLog 20 { level := 20, handlers := [consoleHandler] }
        none none "boom" []).map (fun w => lookupField w.2.fields "exception") =
      [some "None"] ∧
    ¬ ((some "None" : Option String) = none ∨
       (some "None" : Option String) = some "") :=
  ⟨rfl, by decide⟩

/-- Witness for C3's amended statement, with a `ValueError("boom")` in
flight on a logger at the default configured level `INFO` (20). -/
theorem exception_record_fields_witness :
    ({ level := 20, handlers := [consoleHandler] } : LoggerCore).level = 20 ∧
    (20 : Nat) ≤ ERROR ∧
    ∀ w ∈ AsyncLogger.exceptionLog 20 { level := 20, handlers := [consoleHandler] }
        none (some { tyName := "ValueError", msg := "boom", frames := "  File x\n" })
        "boom" [],
      lookupField w.2.fields "exception" =
        some (strOfValue (some { tyName := "ValueError", msg := "boom", frames := "  File x\n" })) ∧
      lookupField w.2.fields "exception_type" =
        some (strOfType (some { tyName := "ValueError", msg := "boom", frames := "  File x\n" })) ∧
      lookupField w.2.fields "traceback" =
        some (formatExc (some { tyName := "ValueError", msg := "boom", frames := "  File x\n" })) ∧
      strOfType (some { tyName := "ValueError", msg := "boom", frames := "  File x\n" }) ≠ "" ∧
      formatExc (some { tyName := "ValueError", msg := "boom", frames := "  File x\n" }) ≠ "" ∧
      ((some { tyName := "ValueError", msg := "boom", frames := "  File x\n" } :
          Option Exc) = none →
        strOfValue (some { tyName := "ValueError", msg := "boom", frames := "  File x\n" }) = "None") ∧
      (∀ e, (some { tyName := "ValueError", msg := "boom", frames := "  File x\n" } :
          Option Exc) = some e → e.msg ≠ "" →
        strOfValue (some { tyName := "ValueError", msg := "boom", frames := "  File x\n" }) ≠ "") :=
  ⟨rfl, by decide,
   (exception_record_fields 20 { level := 20, handlers := [consoleHandler] }
      none (some { tyName := "ValueError", msg := "boom", frames := "  File x\n" })
      "boom" [] rfl (by decide)).2⟩

/-- Claim C8: under every cooperative interleaving of two concurrently
handled requests, each emitted record carries the emitting request's
own correlation id, and the context value observable while that record
is written (the task's own copy of `request_id_var`, per the
`contextvars` propagation contract) is that same own id — never the
other request's; and when both ids are generated (no header), distinct
fresh tokens give the two requests distinct ids. -/
theorem concurrent_requests_isolated (i0 i1 : TaskInput) (sched : List Bool) :
    (∀ p ∈ (sysRun i0 i1 sched).trace,
      p.2.rid = ridOf (if p.1 then i1 else i0) ∧
      p.2.ctxSeen = some (ridOf (if p.1 then i1 else i0))) ∧
    (i0.header = none → i1.header = none → i0.fresh ≠ i1.fresh →
      ridOf i0 ≠ ridOf i1) := by
  constructor
  · intro p hp
    exact (sysRun_good i0 i1 sched).2.2 p hp
  · intro h0 h1 hne
    simpa [ridOf, h0, h1] using hne

/-- Witness for C8: two headerless requests with distinct fresh tokens
under an interleaved schedule. -/
theorem concurrent_requests_isolated_witness :
    (∀ p ∈ (sysRun { header := none, fresh := "uuid-0" }
        { header := none, fresh := "uuid-1" } [false, true, true, false]).trace,
      p.2.rid = ridOf (if p.1 then { header := none, fresh := "uuid-1" }
          else { header := none, fresh := "uuid-0" }) ∧
      p.2.ctxSeen = some (ridOf (if p.1 then { header := none, fresh := "uuid-1" }
          else { header := none, fresh := "uuid-0" }))) ∧
    (({ header := none, fresh := "uuid-0" } : TaskInput).header = none →
      ({ header := none, fresh := "uuid-1" } : TaskInput).header = none →
      ({ header := none, fresh := "uuid-0" } : TaskInput).fresh ≠
        ({ header := none, fresh := "uuid-1" } : TaskInput).fresh →
      ridOf { header := none, fresh := "uuid-0" } ≠
        ridOf { header := none, fresh := "uuid-1" }) :=
  concurrent_requests_isolated { header := none, fresh := "uuid-0" }
    { header := none, fresh := "uuid-1" } [false, true, true, false]

/-- Claim C10: the middleware's rotating file handler for `request.log`
is created with `mode="w"`, so the first creation in a process truncates
any existing file content; the per-name service sinks attached by
`_init_logger` use the `RotatingFileHandler` default `mode="a"` and
preserve existing content. -/
theorem request_log_truncate_service_append {E : Type} (cfg : Nat)
    (freshUuid : String) (reg : LogRegistry) (req : Request)
    (nxt : Request → Except E Response) (name : String) (st : AsyncState)
    (prior : String)
    (hmw : (reg.named "request_logger").handlers = [])
    (hinst : lookupInst st.instances name = none)
    (hsvc : st.registry.hasHandlers name = false) :
    (((requestLogger cfg freshUuid reg req nxt).1.named "request_logger").handlers =
        [reqFileHandler] ∧
      reqFileHandler.mode = "w" ∧
      openEffect reqFileHandler.mode prior = "") ∧
    (((AsyncLogger.new cfg name st).1.registry.named name).handlers =
        [serviceFileHandler name, consoleHandler] ∧
      (serviceFileHandler name).mode = "a" ∧
      openEffect (serviceFileHandler name).mode prior = prior) := by
  constructor
  · refine ⟨?_, rfl, rfl⟩
    rcases hnxt : nxt req with e | resp <;>
      simp [requestLogger, hnxt, hmw, LogRegistry.set]
  · refine ⟨?_, rfl, rfl⟩
    have hnew : (AsyncLogger.new cfg name st).1.registry =
        initLogger cfg name st.registry := by
      simp [AsyncLogger.new, hinst]
    rw [hnew, initLogger_fresh cfg name st.registry hsvc]

/-- Witness for C10 at the interpreter-start states, with prior file
content `"old lines"`. -/
theorem request_log_truncate_service_append_witness :
    (LogRegistry.start.named "request_logger").handlers = [] ∧
    lookupInst AsyncState.start.instances "service" = none ∧
    AsyncState.start.registry.hasHandlers "service" = false ∧
    ((((requestLogger 20 "fresh-uuid" LogRegistry.start exReq exNxtOk).1.named
        "request_logger").handlers = [reqFileHandler] ∧
      reqFileHandler.mode = "w" ∧
      openEffect reqFileHandler.mode "old lines" = "") ∧
    (((AsyncLogger.new 20 "service" AsyncState.start).1.registry.named
        "service").handlers = [serviceFileHandler "service", consoleHandler] ∧
      (serviceFileHandler "service").mode = "a" ∧
      openEffect (serviceFileHandler "service").mode "old lines" = "old lines")) :=
  ⟨rfl, rfl, rfl,
   request_log_truncate_service_append 20 "fresh-uuid" LogRegistry.start exReq
     exNxtOk "service" AsyncState.start "old lines" rfl rfl rfl⟩

end FastapiMongo
